import Mathlib

/-!
Verification development for the e-commerce A2A multi-agent repository.

Shallow embedding conventions:
* Python dicts serialized with `json.dumps` are modelled by the inductive
  `JVal`; serialization itself is omitted (payloads are compared as values).
* Monetary amounts (`price`, `total`, ...) are modelled in hundredths
  (kuruş) as `Int`, ratings in tenths as `Int`; the repository's float
  literals all have at most two (resp. one) decimals, so this is exact.
* `datetime.utcnow() - timedelta(...)` timestamps are modelled as signed
  hour offsets from process start; absolute customer creation dates are
  kept as their string rendering (they are only ever serialized).
* Python `str.lower()` is modelled by `pyLower` (ASCII plus the Turkish
  uppercase letters occurring in the data set), Python's substring test
  `a in b` by `pyIn`/`pyInB`, and slicing `s[:n]` by `pyTake`.
-/

set_option maxRecDepth 100000

namespace ECom

/-- JSON-like values: the shape of every tool result payload. -/
inductive JVal where
  | jnull : JVal
  | jbool : Bool → JVal
  | jnum : Int → JVal
  | jstr : String → JVal
  | jarr : List JVal → JVal
  | jobj : List (String × JVal) → JVal

/-- Field lookup in an object payload (`none` on non-objects / missing keys). -/
def JVal.lookup : JVal → String → Option JVal
  | .jobj kvs, k => kvs.lookup k
  | _, _ => none

/-- Optional string to JSON (Python `None` becomes `null`). -/
def jOptStr : Option String → JVal
  | some s => .jstr s
  | none => .jnull

/-- Optional number to JSON (Python `None` becomes `null`). -/
def jOptNum : Option Int → JVal
  | some n => .jnum n
  | none => .jnull

/-- Lowercase one character the way Python's `str.lower()` does on the
character set occurring in this repository: ASCII `A`–`Z`, and the Turkish
uppercase letters `Ç Ğ İ Ö Ş Ü` (Python maps `İ` to the two-codepoint
string `i̇`, i.e. `i` followed by a combining dot above). -/
def pyLowerChar (c : Char) : String :=
  if c = 'Ç' then "ç"
  else if c = 'Ğ' then "ğ"
  else if c = 'İ' then "i̇"
  else if c = 'Ö' then "ö"
  else if c = 'Ş' then "ş"
  else if c = 'Ü' then "ü"
  else String.singleton c.toLower

/-- Python `s.lower()` over the repository's character set. -/
def pyLower (s : String) : String :=
  String.join (s.data.map pyLowerChar)

/-- Python's substring containment `needle in hay` (propositional form). -/
def pyIn (needle hay : String) : Prop :=
  needle.data <:+: hay.data

instance (n h : String) : Decidable (pyIn n h) :=
  List.decidableInfix n.data h.data

/-- Python's substring containment `needle in hay` (boolean form, used where
the source uses `in` inside a condition). -/
def pyInB (needle hay : String) : Bool :=
  decide (pyIn needle hay)

/-- Python slicing `s[:n]` (by code points, like Python strings). -/
def pyTake (n : Nat) (s : String) : String :=
  ⟨s.data.take n⟩

/-- Python truthiness of an optional string argument (`args.get(k)`):
present and non-empty. -/
def truthyS : Option String → Bool
  | some s => !(s == "")
  | none => false

/-- Python truthiness of an optional numeric argument: present and non-zero. -/
def truthyI : Option Int → Bool
  | some n => !(n == 0)
  | none => false

/-- Python truthiness of an optional boolean argument. -/
def truthyB : Option Bool → Bool
  | some b => b
  | none => false

/-- Order lifecycle statuses (utils/models.py `OrderStatus`). -/
inductive OrderStatus where
  | pending
  | confirmed
  | processing
  | shipped
  | delivered
  | cancelled
  | refunded
deriving DecidableEq

/-- String value of an order status (the `str`-enum's value). -/
def OrderStatus.value : OrderStatus → String
  | .pending => "pending"
  | .confirmed => "confirmed"
  | .processing => "processing"
  | .shipped => "shipped"
  | .delivered => "delivered"
  | .cancelled => "cancelled"
  | .refunded => "refunded"

/-- Product categories (utils/models.py `ProductCategory`). -/
inductive ProductCategory where
  | electronics
  | clothing
  | books
  | home
  | sports
  | beauty
  | toys
  | food
deriving DecidableEq

/-- String value of a product category. -/
def ProductCategory.value : ProductCategory → String
  | .electronics => "electronics"
  | .clothing => "clothing"
  | .books => "books"
  | .home => "home"
  | .sports => "sports"
  | .beauty => "beauty"
  | .toys => "toys"
  | .food => "food"

/-- Parse a category string the way `ProductCategory(args["category"])`
does, with `none` for the `ValueError` case. -/
def parseCategory (s : String) : Option ProductCategory :=
  if s == "electronics" then some .electronics
  else if s == "clothing" then some .clothing
  else if s == "books" then some .books
  else if s == "home" then some .home
  else if s == "sports" then some .sports
  else if s == "beauty" then some .beauty
  else if s == "toys" then some .toys
  else if s == "food" then some .food
  else none

/-- A product review (utils/models.py `ProductReview`); rating in tenths. -/
structure ProductReview where
  reviewer_name : String
  rating : Int
  comment : String
  verified_purchase : Bool := true
  date : String
deriving DecidableEq

/-- A catalog product (utils/models.py `Product`); prices in kuruş,
rating in tenths. -/
structure Product where
  id : String
  name : String
  description : String
  category : ProductCategory
  price : Int
  original_price : Option Int := none
  stock : Int
  brand : String
  sku : String
  rating : Int := 0
  review_count : Int := 0
  reviews : List ProductReview := []
  tags : List String := []
  image_url : String := ""
  in_stock : Bool := true
  specifications : List (String × String) := []
deriving DecidableEq

/-- Round `num / den` (with `0 < den`, `0 ≤ num`) to the nearest integer,
halves to even — the rounding mode of Python's `round`. -/
def roundHalfEven (num den : Int) : Int :=
  let q := num / den
  let r := num % den
  if 2 * r < den then q
  else if 2 * r > den then q + 1
  else if q % 2 = 0 then q else q + 1

/-- Computed discount (models.py `Product.discount_percentage`), in tenths
of a percent: `round((1 - price / original_price) * 100, 1)` when an
original price above the current price exists. (The source rounds the
float quotient; we round the exact rational, which agrees on this data.) -/
def Product.discount_percentage (p : Product) : Option Int :=
  match p.original_price with
  | some o => if o > p.price then some (roundHalfEven (1000 * (o - p.price)) o) else none
  | none => none

/-- The mock product catalog (data/mock_data.py `PRODUCTS`). -/
def PRODUCTS : List Product := [
  { id := "prod-001",
    name := "Sony WH-1000XM5 Kablosuz Kulaklık",
    description := "Endüstrinin en iyi gürültü engelleme teknolojisi. 30 saat pil ömrü, hızlı şarj desteği ve kristal netliğinde ses kalitesi.",
    category := .electronics,
    price := 89999, original_price := some 109999, stock := 45,
    brand := "Sony", sku := "SONY-WH1000XM5-BLK",
    rating := 48, review_count := 1247,
    tags := ["kulaklık", "bluetooth", "gürültü engelleme", "sony", "premium"],
    specifications := [("Bağlantı", "Bluetooth 5.2"), ("Pil Ömrü", "30 saat"),
      ("Ağırlık", "250g"), ("Renk", "Siyah"), ("Garanti", "2 yıl")],
    reviews := [
      { reviewer_name := "Ahmet Y.", rating := 50,
        comment := "Muhteşem gürültü engelleme. Uçuşlarda vazgeçilmez oldu.",
        date := "2024-11-15" },
      { reviewer_name := "Zeynep K.", rating := 45,
        comment := "Ses kalitesi harika ama biraz ağır.",
        date := "2024-12-01" }] },
  { id := "prod-002",
    name := "Apple MacBook Pro 14\" M3 Pro",
    description := "M3 Pro çipiyle profesyonel performans. 18 saate kadar pil ömrü, Liquid Retina XDR ekran.",
    category := .electronics,
    price := 5499999, original_price := some 5999999, stock := 12,
    brand := "Apple", sku := "APPLE-MBP14-M3PRO-SLV",
    rating := 49, review_count := 567,
    tags := ["laptop", "apple", "macbook", "m3", "profesyonel"],
    specifications := [("İşlemci", "Apple M3 Pro"), ("RAM", "18GB"),
      ("Depolama", "512GB SSD"), ("Ekran", "14.2\" Liquid Retina XDR"), ("Pil", "18 saat")],
    reviews := [
      { reviewer_name := "Burak S.", rating := 50,
        comment := "Geliştirici olarak çok verimli. Build süreleri inanılmaz hızlı.",
        date := "2024-10-20" }] },
  { id := "prod-003",
    name := "Nike Air Max 270 Spor Ayakkabı",
    description := "Max Air yastıklama ile maksimum konfor. Nefes alan mesh üst yüzey.",
    category := .clothing,
    price := 219999, original_price := some 279999, stock := 78,
    brand := "Nike", sku := "NIKE-AM270-WHT-42",
    rating := 46, review_count := 3421,
    tags := ["ayakkabı", "spor", "nike", "koşu", "rahat"],
    specifications := [("Numara", "36-47"), ("Malzeme", "Mesh + Deri"),
      ("Taban", "Foam + Air Max"), ("Kullanım", "Günlük / Koşu")],
    reviews := [
      { reviewer_name := "Fatma B.", rating := 40,
        comment := "Çok rahat, sehirde günlük kullanım için mükemmel.",
        date := "2024-11-28" },
      { reviewer_name := "Mehmet A.", rating := 50,
        comment := "Fiyat performans açısından harika.",
        date := "2024-12-10" }] },
  { id := "prod-004",
    name := "Kindle Paperwhite (11. Nesil)",
    description := "300 ppi ekran, 10 hafta pil ömrü, su geçirmez tasarım. 8GB depolama.",
    category := .electronics,
    price := 129999, original_price := some 149999, stock := 156,
    brand := "Amazon", sku := "AMZN-KINDLE-PW11-BLK",
    rating := 47, review_count := 8934,
    tags := ["e-kitap", "okuyucu", "kindle", "amazon", "okuma"],
    specifications := [("Ekran", "6.8\" 300ppi E Ink"), ("Depolama", "8GB"),
      ("Pil Ömrü", "10 hafta"), ("Su Geçirmezlik", "IPX8")],
    reviews := [
      { reviewer_name := "Elif C.", rating := 50,
        comment := "Kitap okumayı tamamen yeniden keşfettim. Gözler yorulmuyor.",
        date := "2024-09-15" }] },
  { id := "prod-005",
    name := "Dyson V15 Detect Kablosuz Süpürge",
    description := "Lazer toz tespiti teknolojisi. 60 dakika pil ömrü, HEPA filtrasyon.",
    category := .home,
    price := 1299999, original_price := some 1499999, stock := 23,
    brand := "Dyson", sku := "DYSON-V15-DETECT",
    rating := 48, review_count := 2156,
    tags := ["süpürge", "kablosuz", "dyson", "temizlik", "ev"],
    specifications := [("Pil Ömrü", "60 dakika"), ("Emme Gücü", "230AW"),
      ("Filtre", "HEPA"), ("Ağırlık", "3.1kg")] },
  { id := "prod-006",
    name := "Samsung Galaxy S24 Ultra",
    description := "200MP kamera, 5000mAh batarya, Snapdragon 8 Gen 3, S Pen dahil.",
    category := .electronics,
    price := 4799999, original_price := some 5299999, stock := 34,
    brand := "Samsung", sku := "SAMSUNG-S24U-BLK-256",
    rating := 47, review_count := 4521,
    tags := ["telefon", "samsung", "galaxy", "android", "kamera"],
    specifications := [("İşlemci", "Snapdragon 8 Gen 3"), ("RAM", "12GB"),
      ("Depolama", "256GB"), ("Kamera", "200MP + 12MP + 10MP + 50MP"),
      ("Batarya", "5000mAh"), ("Ekran", "6.8\" Dynamic AMOLED 2X")],
    reviews := [
      { reviewer_name := "Can T.", rating := 50,
        comment := "Kamera kalitesi profesyonel fotoğraf makineleriyle yarışıyor.",
        date := "2024-10-05" }] },
  { id := "prod-007",
    name := "Levi\x27s 501 Original Erkek Jean",
    description := "İkonik düz kesim Levi\x27s 501. %100 pamuk, dayanıklı ve zamansız stil.",
    category := .clothing,
    price := 89999, original_price := some 109999, stock := 0,
    brand := "Levi\x27s", sku := "LEVIS-501-32X32-BLU",
    rating := 45, review_count := 12453,
    tags := ["jean", "kot", "erkek", "levi\x27s", "klasik"],
    in_stock := false,
    specifications := [("Beden", "Tüm bedenler"), ("Materyal", "%100 Pamuk"),
      ("Kesim", "Düz"), ("Renk", "Mavi")] },
  { id := "prod-008",
    name := "Philips Hue Starter Kit (4 Ampul + Bridge)",
    description := "Akıllı ev aydınlatma sistemi. 16 milyon renk, uygulama ile kontrol.",
    category := .home,
    price := 249999, original_price := some 299999, stock := 67,
    brand := "Philips", sku := "PHILIPS-HUE-SK4",
    rating := 44, review_count := 5671,
    tags := ["akıllı ev", "aydınlatma", "philips", "hue", "otomasyon"],
    specifications := [("Ampul Sayısı", "4"), ("Protokol", "Zigbee / Bluetooth"),
      ("Renk", "16 milyon"), ("Güç", "9W (75W eşdeğeri)")] },
  { id := "prod-009",
    name := "Atomic Habits - James Clear (Türkçe)",
    description := "Küçük alışkanlıkların büyük etkisi. 10 milyonun üzerinde kopya satan dünya genelinde bestseller.",
    category := .books,
    price := 8999, original_price := some 11999, stock := 234,
    brand := "Olimpos", sku := "BOOK-ATOMIC-HABITS-TR",
    rating := 49, review_count := 34521,
    tags := ["kitap", "kişisel gelişim", "alışkanlık", "bestseller"],
    specifications := [("Sayfa Sayısı", "320"), ("Dil", "Türkçe"),
      ("Yayınevi", "Olimpos"), ("Baskı", "15. Baskı")] },
  { id := "prod-010",
    name := "Nespresso Vertuo Next Kahve Makinesi",
    description := "Centrifusion teknolojisi ile mükemmel espresso. 5 bardak boyutu, akıllı kapsül tanıma.",
    category := .home,
    price := 329999, original_price := some 399999, stock := 45,
    brand := "Nespresso", sku := "NESPRESSO-VERTUO-NEXT",
    rating := 46, review_count := 7823,
    tags := ["kahve", "nespresso", "espresso", "kapsül", "mutfak"],
    specifications := [("Kapasite", "1.1L"), ("Basınç", "19 bar"),
      ("Isınma", "30 saniye"), ("Bardak Boyutları", "5 farklı")] }
]

/-- Find a product by id (data/mock_data.py `get_product_by_id`). -/
def get_product_by_id (product_id : String) : Option Product :=
  PRODUCTS.find? (fun p => p.id == product_id)

/-- All products in a category (data/mock_data.py `get_products_by_category`). -/
def get_products_by_category (category : ProductCategory) : List Product :=
  PRODUCTS.filter (fun p => p.category == category)

/-- Keyword match used by the catalog search: the lowercased query occurs in
the lowercased name, description, some tag, or brand
(data/mock_data.py `search_products` condition). -/
def matchesQuery (query : String) (p : Product) : Bool :=
  let ql := pyLower query
  pyInB ql (pyLower p.name)
    || pyInB ql (pyLower p.description)
    || p.tags.any (fun tag => pyInB ql (pyLower tag))
    || pyInB ql (pyLower p.brand)

/-- Catalog keyword search (data/mock_data.py `search_products`). -/
def search_products (query : String) : List Product :=
  PRODUCTS.filter (matchesQuery query)

/-- A customer record (utils/models.py `Customer`); `total_spent` in kuruş,
`created_at` kept as its serialized string. -/
structure Customer where
  id : String
  email : String
  full_name : String
  phone : Option String := none
  total_orders : Int := 0
  total_spent : Int := 0
  loyalty_points : Int := 0
  created_at : String
deriving DecidableEq

/-- The mock customer list (data/mock_data.py `CUSTOMERS`). -/
def CUSTOMERS : List Customer := [
  { id := "cust-001", email := "ahmet.yilmaz@example.com", full_name := "Ahmet Yılmaz",
    phone := some "+90 532 123 4567", total_orders := 8, total_spent := 1245050,
    loyalty_points := 1245, created_at := "2023-03-15 00:00:00" },
  { id := "cust-002", email := "zeynep.kaya@example.com", full_name := "Zeynep Kaya",
    phone := some "+90 543 987 6543", total_orders := 3, total_spent := 321000,
    loyalty_points := 321, created_at := "2024-01-08 00:00:00" },
  { id := "cust-003", email := "mehmet.demir@example.com", full_name := "Mehmet Demir",
    phone := some "+90 555 456 7890", total_orders := 15, total_spent := 4567000,
    loyalty_points := 4567, created_at := "2022-07-22 00:00:00" }
]

/-- One line of an order (utils/models.py `OrderItem`); prices in kuruş. -/
structure OrderItem where
  product_id : String
  product_name : String
  quantity : Int
  unit_price : Int
  total_price : Int
deriving DecidableEq

/-- A shipping address (utils/models.py `ShippingAddress`). -/
structure ShippingAddress where
  full_name : String
  street : String
  city : String
  state : String
  postal_code : String
  country : String := "TR"
deriving DecidableEq

/-- A tracking event (utils/models.py `TrackingEvent`); the timestamp is the
signed hour offset from process start standing for
`datetime.utcnow() - timedelta(...)`. -/
structure TrackingEvent where
  timestamp : Int
  status : String
  location : String
  description : String
deriving DecidableEq

/-- An order (utils/models.py `Order`); amounts in kuruş, timestamps as
signed hour offsets from process start. -/
structure Order where
  id : String
  customer_id : String
  customer_email : String
  items : List OrderItem
  status : OrderStatus := .pending
  shipping_address : ShippingAddress
  subtotal : Int
  shipping_cost : Int := 0
  tax : Int := 0
  total : Int
  created_at : Int
  updated_at : Int
  tracking_number : Option String := none
  tracking_events : List TrackingEvent := []
  estimated_delivery : Option String := none
  notes : Option String := none
deriving DecidableEq

/-- The mock order list (data/mock_data.py `ORDERS`). -/
def ORDERS : List Order := [
  { id := "ord-001", customer_id := "cust-001", customer_email := "ahmet.yilmaz@example.com",
    items := [
      { product_id := "prod-001", product_name := "Sony WH-1000XM5 Kablosuz Kulaklık",
        quantity := 1, unit_price := 89999, total_price := 89999 }],
    status := .shipped,
    shipping_address :=
      { full_name := "Ahmet Yılmaz", street := "Atatürk Cad. No:42",
        city := "İstanbul", state := "İstanbul", postal_code := "34000" },
    subtotal := 89999, shipping_cost := 0, tax := 16199, total := 106198,
    created_at := -72, updated_at := -12,
    tracking_number := some "TK123456789TR",
    estimated_delivery := some "2025-02-19",
    tracking_events := [
      { timestamp := -72, status := "Sipariş Alındı", location := "İstanbul Depo",
        description := "Siparişiniz sisteme kaydedildi" },
      { timestamp := -48, status := "Kargoya Verildi", location := "İstanbul Dağıtım Merkezi",
        description := "Paketiniz kargo firmasına teslim edildi" },
      { timestamp := -12, status := "Dağıtımda", location := "İstanbul Avrupa Yakası Şube",
        description := "Paketiniz dağıtım şubesine ulaştı" }] },
  { id := "ord-002", customer_id := "cust-001", customer_email := "ahmet.yilmaz@example.com",
    items := [
      { product_id := "prod-009", product_name := "Atomic Habits - James Clear",
        quantity := 2, unit_price := 8999, total_price := 17998 },
      { product_id := "prod-004", product_name := "Kindle Paperwhite (11. Nesil)",
        quantity := 1, unit_price := 129999, total_price := 129999 }],
    status := .delivered,
    shipping_address :=
      { full_name := "Ahmet Yılmaz", street := "Atatürk Cad. No:42",
        city := "İstanbul", state := "İstanbul", postal_code := "34000" },
    subtotal := 147997, shipping_cost := 0, tax := 26639, total := 174636,
    created_at := -360, updated_at := -240,
    tracking_number := some "TK987654321TR",
    tracking_events := [
      { timestamp := -360, status := "Sipariş Alındı", location := "İstanbul Depo",
        description := "Siparişiniz sisteme kaydedildi" },
      { timestamp := -240, status := "Teslim Edildi", location := "İstanbul",
        description := "Paketiniz kapıda teslim edildi" }] },
  { id := "ord-003", customer_id := "cust-002", customer_email := "zeynep.kaya@example.com",
    items := [
      { product_id := "prod-003", product_name := "Nike Air Max 270 Spor Ayakkabı",
        quantity := 1, unit_price := 219999, total_price := 219999 }],
    status := .processing,
    shipping_address :=
      { full_name := "Zeynep Kaya", street := "Bağdat Cad. No:15",
        city := "İstanbul", state := "İstanbul", postal_code := "34730" },
    subtotal := 219999, shipping_cost := 0, tax := 39600, total := 259599,
    created_at := -6, updated_at := -2,
    estimated_delivery := some "2025-02-20" },
  { id := "ord-004", customer_id := "cust-003", customer_email := "mehmet.demir@example.com",
    items := [
      { product_id := "prod-002", product_name := "Apple MacBook Pro 14\" M3 Pro",
        quantity := 1, unit_price := 5499999, total_price := 5499999 }],
    status := .confirmed,
    shipping_address :=
      { full_name := "Mehmet Demir", street := "Cumhuriyet Mah. 456. Sok. No:7",
        city := "Ankara", state := "Ankara", postal_code := "06000" },
    subtotal := 5499999, shipping_cost := 0, tax := 989999, total := 6489998,
    created_at := -2, updated_at := -1,
    estimated_delivery := some "2025-02-22" }
]

/-- Find an order by id (data/mock_data.py `get_order_by_id`). The source
reads the module-level `ORDERS`; the embedding threads the order store
explicitly so that (non-)mutation is expressible. -/
def get_order_by_id (orders : List Order) (order_id : String) : Option Order :=
  orders.find? (fun o => o.id == order_id)

/-- Orders of a customer by id (data/mock_data.py `get_orders_by_customer`). -/
def get_orders_by_customer (orders : List Order) (customer_id : String) : List Order :=
  orders.filter (fun o => o.customer_id == customer_id)

/-- Orders of a customer by email, case-insensitively
(data/mock_data.py `get_orders_by_email`). -/
def get_orders_by_email (orders : List Order) (email : String) : List Order :=
  orders.filter (fun o => pyLower o.customer_email == pyLower email)

/-- Find a customer by id (data/mock_data.py `get_customer_by_id`). -/
def get_customer_by_id (customer_id : String) : Option Customer :=
  CUSTOMERS.find? (fun c => c.id == customer_id)

/-- Find a customer by email, case-insensitively
(data/mock_data.py `get_customer_by_email`). -/
def get_customer_by_email (email : String) : Option Customer :=
  CUSTOMERS.find? (fun c => pyLower c.email == pyLower email)

/-- The argument dictionary of a tool call: every key any tool reads,
each optional (absent key = `none`). -/
structure ToolArgs where
  query : Option String := none
  category : Option String := none
  max_price : Option Int := none
  min_rating : Option Int := none
  in_stock_only : Option Bool := none
  product_id : Option String := none
  order_id : Option String := none
  email : Option String := none
  customer_id : Option String := none
  limit : Option Int := none
  reason : Option String := none

/-- Payload for a missing required argument: `args[k]` raises `KeyError`,
which `call_tool` turns into an error payload (the exact Python message
text differs; no claim depends on it). -/
def keyErrorPayload (k : String) : JVal :=
  .jobj [("error", .jstr ("KeyError: " ++ k))]

/-- Stable insertion of `x` before the first element `y` with `le x y`. -/
def stableInsert (le : α → α → Bool) (x : α) : List α → List α
  | [] => [x]
  | y :: ys => if le x y then x :: y :: ys else y :: stableInsert le x ys

/-- Stable insertion sort; extensionally equal to Python's stable `sorted`
for a total preorder `le`. -/
def stableSort (le : α → α → Bool) : List α → List α
  | [] => []
  | x :: xs => stableInsert le x (stableSort le xs)

/-- Python `sorted(ps, key=lambda p: p.rating, reverse=True)`: stable
descending sort by rating (ties keep catalog order). -/
def sortByRatingDesc (ps : List Product) : List Product :=
  stableSort (fun a b => decide (b.rating ≤ a.rating)) ps

/-- The product summary used by list-shaped tool results
(mcp_server/server.py `_product_summary`). -/
def _product_summary (p : Product) : JVal :=
  .jobj [
    ("id", .jstr p.id),
    ("name", .jstr p.name),
    ("category", .jstr p.category.value),
    ("price", .jnum p.price),
    ("original_price", jOptNum p.original_price),
    ("discount_percentage", jOptNum p.discount_percentage),
    ("rating", .jnum p.rating),
    ("review_count", .jnum p.review_count),
    ("in_stock", .jbool p.in_stock),
    ("brand", .jstr p.brand),
    ("tags", .jarr (p.tags.map JVal.jstr))]

/-- Serialization of a review inside `Product.model_dump()`. -/
def reviewModelDump (r : ProductReview) : JVal :=
  .jobj [
    ("reviewer_name", .jstr r.reviewer_name),
    ("rating", .jnum r.rating),
    ("comment", .jstr r.comment),
    ("verified_purchase", .jbool r.verified_purchase),
    ("date", .jstr r.date)]

/-- Pydantic `Product.model_dump()` as serialized by `json.dumps`. -/
def productModelDump (p : Product) : JVal :=
  .jobj [
    ("id", .jstr p.id),
    ("name", .jstr p.name),
    ("description", .jstr p.description),
    ("category", .jstr p.category.value),
    ("price", .jnum p.price),
    ("original_price", jOptNum p.original_price),
    ("stock", .jnum p.stock),
    ("brand", .jstr p.brand),
    ("sku", .jstr p.sku),
    ("rating", .jnum p.rating),
    ("review_count", .jnum p.review_count),
    ("reviews", .jarr (p.reviews.map reviewModelDump)),
    ("tags", .jarr (p.tags.map JVal.jstr)),
    ("image_url", .jstr p.image_url),
    ("in_stock", .jbool p.in_stock),
    ("specifications", .jobj (p.specifications.map (fun kv => (kv.1, JVal.jstr kv.2))))]

/-- Pydantic `Customer.model_dump()` as serialized by `json.dumps`. -/
def customerModelDump (c : Customer) : JVal :=
  .jobj [
    ("id", .jstr c.id),
    ("email", .jstr c.email),
    ("full_name", .jstr c.full_name),
    ("phone", jOptStr c.phone),
    ("total_orders", .jnum c.total_orders),
    ("total_spent", .jnum c.total_spent),
    ("loyalty_points", .jnum c.loyalty_points),
    ("created_at", .jstr c.created_at)]

/-- Serialization of one tracking event in a `get_order_status` result;
`timestamp.isoformat()` is modelled by the numeric hour offset. -/
def trackingEventJson (e : TrackingEvent) : JVal :=
  .jobj [
    ("timestamp", .jnum e.timestamp),
    ("status", .jstr e.status),
    ("location", .jstr e.location),
    ("description", .jstr e.description)]

/-- The filtered result list of the dispatcher's `search_products` branch
(mcp_server/server.py lines 268-278): keyword search, then the optional
category / max_price / min_rating / in_stock_only filters, each applied
only when the argument is present and truthy. -/
def mcpSearchResults (q : String) (category : Option String)
    (max_price min_rating : Option Int) (in_stock_only : Option Bool) : List Product :=
  let r0 := search_products q
  let r1 := if truthyS category
    then r0.filter (fun p => p.category.value == category.getD "") else r0
  let r2 := if truthyI max_price
    then r1.filter (fun p => decide (p.price ≤ max_price.getD 0)) else r1
  let r3 := if truthyI min_rating
    then r2.filter (fun p => decide (p.rating ≥ min_rating.getD 0)) else r2
  if truthyB in_stock_only then r3.filter (fun p => p.in_stock) else r3

/-- One order entry of the dispatcher's `get_customer_orders` result;
`created_at.isoformat()` is modelled by the numeric hour offset. -/
def mcpOrderEntry (o : Order) : JVal :=
  .jobj [
    ("id", .jstr o.id),
    ("status", .jstr o.status.value),
    ("total", .jnum o.total),
    ("item_count", .jnum o.items.length),
    ("created_at", .jnum o.created_at),
    ("tracking_number", jOptStr o.tracking_number)]

/-- The MCP server's tool dispatcher (mcp_server/server.py `_dispatch_tool`).
The order store is threaded explicitly; the Python function reads the
module-level `ORDERS` and mutates nothing, so every branch returns the
store unchanged. -/
def _dispatch_tool (orders : List Order) (name : String) (args : ToolArgs) : JVal × List Order :=
  if name == "search_products" then
    match args.query with
    | none => (keyErrorPayload "query", orders)
    | some q =>
      let results := mcpSearchResults q args.category args.max_price args.min_rating args.in_stock_only
      (.jobj [("products", .jarr (results.map _product_summary)),
              ("total", .jnum results.length),
              ("query", .jstr q)], orders)
  else if name == "get_product_details" then
    match args.product_id with
    | none => (keyErrorPayload "product_id", orders)
    | some pid =>
      match get_product_by_id pid with
      | none => (.jobj [("error", .jstr ("Product " ++ pid ++ " not found"))], orders)
      | some p => (productModelDump p, orders)
  else if name == "get_products_by_category" then
    match args.category with
    | none => (keyErrorPayload "category", orders)
    | some c =>
      match parseCategory c with
      | none => (.jobj [("error", .jstr ("Unknown category: " ++ c))], orders)
      | some cat =>
        (.jobj [("products", .jarr ((get_products_by_category cat).map _product_summary)),
                ("category", .jstr c)], orders)
  else if name == "check_product_availability" then
    match args.product_id with
    | none => (keyErrorPayload "product_id", orders)
    | some pid =>
      match get_product_by_id pid with
      | none => (.jobj [("error", .jstr ("Product " ++ pid ++ " not found"))], orders)
      | some p =>
        (.jobj [("product_id", .jstr p.id),
                ("name", .jstr p.name),
                ("in_stock", .jbool p.in_stock),
                ("stock_count", .jnum p.stock),
                ("price", .jnum p.price),
                ("original_price", jOptNum p.original_price),
                ("discount_percentage", jOptNum p.discount_percentage)], orders)
  else if name == "get_order_status" then
    match args.order_id with
    | none => (keyErrorPayload "order_id", orders)
    | some oid =>
      match get_order_by_id orders oid with
      | none => (.jobj [("error", .jstr ("Order " ++ oid ++ " not found"))], orders)
      | some o =>
        (.jobj [("order_id", .jstr o.id),
                ("status", .jstr o.status.value),
                ("tracking_number", jOptStr o.tracking_number),
                ("estimated_delivery", jOptStr o.estimated_delivery),
                ("items", .jarr (o.items.map (fun i =>
                  .jobj [("name", .jstr i.product_name), ("qty", .jnum i.quantity)]))),
                ("total", .jnum o.total),
                ("tracking_events", .jarr (o.tracking_events.map trackingEventJson))], orders)
  else if name == "get_customer_orders" then
    if truthyS args.email then
      let os := get_orders_by_email orders (args.email.getD "")
      (.jobj [("orders", .jarr (os.map mcpOrderEntry)), ("total", .jnum os.length)], orders)
    else if truthyS args.customer_id then
      let os := get_orders_by_customer orders (args.customer_id.getD "")
      (.jobj [("orders", .jarr (os.map mcpOrderEntry)), ("total", .jnum os.length)], orders)
    else
      (.jobj [("error", .jstr "Provide either email or customer_id")], orders)
  else if name == "get_customer_profile" then
    if truthyS args.email then
      match get_customer_by_email (args.email.getD "") with
      | none => (.jobj [("error", .jstr "Customer not found")], orders)
      | some c => (customerModelDump c, orders)
    else if truthyS args.customer_id then
      match get_customer_by_id (args.customer_id.getD "") with
      | none => (.jobj [("error", .jstr "Customer not found")], orders)
      | some c => (customerModelDump c, orders)
    else
      (.jobj [("error", .jstr "Provide either email or customer_id")], orders)
  else if name == "get_recommendations" then
    let limit := (args.limit.getD 4).toNat
    let fromProduct : Option JVal :=
      if truthyS args.product_id then
        match get_product_by_id (args.product_id.getD "") with
        | some base =>
          let related := PRODUCTS.filter (fun p =>
            p.id != base.id && (p.category == base.category
              || p.tags.any (fun t => base.tags.contains t)))
          some (.jobj [("recommendations",
            .jarr (((sortByRatingDesc related).take limit).map _product_summary))])
        | none => none
      else none
    match fromProduct with
    | some payload => (payload, orders)
    | none =>
      let fromCategory : Option JVal :=
        if truthyS args.category then
          match parseCategory (args.category.getD "") with
          | some cat =>
            some (.jobj [("recommendations",
              .jarr (((sortByRatingDesc (get_products_by_category cat)).take limit).map _product_summary))])
          | none => none
        else none
      match fromCategory with
      | some payload => (payload, orders)
      | none =>
        (.jobj [("recommendations",
          .jarr (((sortByRatingDesc PRODUCTS).take limit).map _product_summary))], orders)
  else if name == "cancel_order" then
    match args.order_id with
    | none => (keyErrorPayload "order_id", orders)
    | some oid =>
      match get_order_by_id orders oid with
      | none => (.jobj [("error", .jstr ("Order " ++ oid ++ " not found"))], orders)
      | some o =>
        if !(o.status == .pending || o.status == .confirmed) then
          (.jobj [("error", .jstr ("Order cannot be cancelled. Current status: " ++ o.status.value)),
                  ("cancellable", .jbool false)], orders)
        else
          (.jobj [("success", .jbool true),
                  ("order_id", .jstr o.id),
                  ("message", .jstr ("Order " ++ o.id ++ " has been cancelled successfully. Refund will be processed in 3-5 business days.")),
                  ("refund_amount", .jnum o.total)], orders)
  else
    (.jobj [("error", .jstr ("Unknown tool: " ++ name))], orders)

/-- The filtered result list of the product agent's local fallback search
(agents/product_agent/agent.py lines 68-75): same keyword search, then
the category / max_price / in_stock_only filters — there is no
min_rating step. -/
def productFallbackSearchResults (args : ToolArgs) : List Product :=
  let r0 := search_products (args.query.getD "")
  let r1 := if truthyS args.category
    then r0.filter (fun p => p.category.value == args.category.getD "") else r0
  let r2 := if truthyI args.max_price
    then r1.filter (fun p => decide (p.price ≤ args.max_price.getD 0)) else r1
  if truthyB args.in_stock_only then r2.filter (fun p => p.in_stock) else r2

/-- One product entry of the product agent's fallback search result
(a reduced seven-field summary). -/
def productFallbackEntry (p : Product) : JVal :=
  .jobj [
    ("id", .jstr p.id),
    ("name", .jstr p.name),
    ("price", .jnum p.price),
    ("rating", .jnum p.rating),
    ("in_stock", .jbool p.in_stock),
    ("brand", .jstr p.brand),
    ("category", .jstr p.category.value)]

/-- The product agent's local fallback dispatcher
(agents/product_agent/agent.py `_direct_tool_call`). -/
def product_agent_direct_tool_call (tool_name : String) (args : ToolArgs) : JVal :=
  if tool_name == "search_products" then
    let results := productFallbackSearchResults args
    .jobj [("products", .jarr (results.map productFallbackEntry)),
           ("total", .jnum results.length)]
  else if tool_name == "get_product_details" then
    match args.product_id with
    | none => keyErrorPayload "product_id"
    | some pid =>
      match get_product_by_id pid with
      | none => .jobj [("error", .jstr "not found")]
      | some p => productModelDump p
  else if tool_name == "get_recommendations" then
    let top := (sortByRatingDesc PRODUCTS).take 4
    .jobj [("recommendations", .jarr (top.map (fun p =>
      .jobj [("id", .jstr p.id), ("name", .jstr p.name),
             ("price", .jnum p.price), ("rating", .jnum p.rating)])))]
  else
    .jobj [("error", .jstr ("Tool " ++ tool_name ++ " not available in fallback"))]

/-- The order agent's local fallback dispatcher
(agents/order_agent/agent.py `_direct_tool_call`); like the MCP
dispatcher it reads the order store and mutates nothing. -/
def order_agent_direct_tool_call (orders : List Order) (tool_name : String) (args : ToolArgs) :
    JVal × List Order :=
  if tool_name == "get_order_status" then
    match args.order_id with
    | none => (keyErrorPayload "order_id", orders)
    | some oid =>
      match get_order_by_id orders oid with
      | none => (.jobj [("error", .jstr ("Sipariş " ++ oid ++ " bulunamadı"))], orders)
      | some o =>
        (.jobj [("order_id", .jstr o.id),
                ("status", .jstr o.status.value),
                ("tracking_number", jOptStr o.tracking_number),
                ("estimated_delivery", jOptStr o.estimated_delivery),
                ("items", .jarr (o.items.map (fun i =>
                  .jobj [("name", .jstr i.product_name), ("qty", .jnum i.quantity)]))),
                ("total", .jnum o.total),
                ("tracking_events", .jarr (o.tracking_events.map trackingEventJson))], orders)
  else if tool_name == "get_customer_orders" then
    if truthyS args.email then
      let os := get_orders_by_email orders (args.email.getD "")
      (.jobj [("orders", .jarr (os.map (fun o =>
        .jobj [("id", .jstr o.id),
               ("status", .jstr o.status.value),
               ("total", .jnum o.total),
               ("item_count", .jnum o.items.length),
               ("created_at", .jnum o.created_at),
               ("tracking_number", jOptStr o.tracking_number),
               ("estimated_delivery", jOptStr o.estimated_delivery)]))),
              ("total", .jnum os.length)], orders)
    else if truthyS args.customer_id then
      let os := get_orders_by_customer orders (args.customer_id.getD "")
      (.jobj [("orders", .jarr (os.map (fun o =>
        .jobj [("id", .jstr o.id),
               ("status", .jstr o.status.value),
               ("total", .jnum o.total),
               ("item_count", .jnum o.items.length),
               ("created_at", .jnum o.created_at),
               ("tracking_number", jOptStr o.tracking_number),
               ("estimated_delivery", jOptStr o.estimated_delivery)]))),
              ("total", .jnum os.length)], orders)
    else
      (.jobj [("error", .jstr "Email veya müşteri ID gerekli")], orders)
  else if tool_name == "cancel_order" then
    match args.order_id with
    | none => (keyErrorPayload "order_id", orders)
    | some oid =>
      match get_order_by_id orders oid with
      | none => (.jobj [("error", .jstr "Sipariş bulunamadı")], orders)
      | some o =>
        if !(o.status == .pending || o.status == .confirmed) then
          (.jobj [("error", .jstr ("Sipariş iptal edilemiyor. Mevcut durum: " ++ o.status.value)),
                  ("cancellable", .jbool false)], orders)
        else
          (.jobj [("success", .jbool true),
                  ("order_id", .jstr o.id),
                  ("message", .jstr ("Sipariş " ++ o.id ++ " başarıyla iptal edildi. İade 3-5 iş gününde işleme alınacak.")),
                  ("refund_amount", .jnum o.total)], orders)
  else if tool_name == "get_customer_profile" then
    match get_customer_by_email (args.email.getD "") with
    | none => (.jobj [("error", .jstr "Müşteri bulunamadı")], orders)
    | some c => (customerModelDump c, orders)
  else
    (.jobj [("error", .jstr ("Tool not available: " ++ tool_name))], orders)

/-- One part of an artifact or status message seen by the orchestrator's
response unwrapping: `some t` when the part has a `root` with a `text`
attribute equal to `t`, `none` for any other part shape. -/
abbrev A2APart := Option String

/-- An artifact of a delegated task's response. -/
structure A2AArtifact where
  parts : List A2APart

/-- The message attached to a task status. -/
structure A2AMessage where
  parts : List A2APart

/-- A task status, optionally carrying a message. -/
structure A2AStatus where
  message : Option A2AMessage

/-- The `result` object of a delegation response: an optional artifact
list and an optional status. -/
structure A2AResult where
  artifacts : Option (List A2AArtifact)
  status : Option A2AStatus

/-- Transport outcome of one delegation call: a response whose
`root.result` is `r` (or `none` when those attributes are missing), or an
exception raised anywhere inside the call. -/
inductive DelegationOutcome where
  | response (r : Option A2AResult)
  | raised (e : String)

/-- Concatenated text of a part list (parts without text contribute
nothing). -/
def partsText (ps : List A2APart) : String :=
  String.join (ps.filterMap id)

/-- Concatenated text over all artifacts, in order. -/
def artifactsText (arts : List A2AArtifact) : String :=
  String.join (arts.map (fun a => partsText a.parts))

/-- Python truthiness of the optional artifact list: present and
non-empty. -/
def artifactsTruthy (r : A2AResult) : Bool :=
  match r.artifacts with
  | some arts => !arts.isEmpty
  | none => false

/-- The orchestrator's response-text extraction
(agents/orchestrator/agent.py lines 65-85): artifacts are consulted first
when present and non-empty; otherwise the status message, when present;
otherwise the accumulator stays empty. -/
def extractResultText (res : Option A2AResult) : String :=
  match res with
  | none => ""
  | some r =>
    if artifactsTruthy r then artifactsText (r.artifacts.getD [])
    else
      match r.status with
      | some st =>
        match st.message with
        | some m => partsText m.parts
        | none => ""
      | none => ""

/-- The Delegation Client (agents/orchestrator/agent.py
`_delegate_to_agent`), parameterized by the transport outcome. Totality of
this function models the top-level `try/except` that converts every raised
exception into a fallback string. -/
def _delegate_to_agent (agent_name : String) (outcome : DelegationOutcome) : String :=
  match outcome with
  | .response res =>
    let result_text := extractResultText res
    if !(result_text == "") then result_text else agent_name ++ " yanıt vermedi."
  | .raised e =>
    agent_name ++ " şu anda ulaşılamıyor (" ++ pyTake 100 e ++ "). Lütfen daha sonra tekrar deneyin."

/-- A web-search hit as returned by the Tavily collaborator. -/
structure TavilyResult where
  title : String
  url : String
  content : String
  score : Int := 0

/-- Outcome of a Tavily search call: an answer plus ranked results, or an
exception. -/
inductive TavilyOutcome where
  | ok (answer : String) (results : List TavilyResult)
  | raised (e : String)

/-- Search agent tool `web_search` (agents/search_agent/agent.py),
parameterized by the configured API key and the collaborator outcome. -/
def web_search (apiKey : String) (outcome : TavilyOutcome) : JVal :=
  if apiKey == "" then
    .jobj [("message", .jstr "TAVILY_API_KEY yapılandırılmamış. Web araması devre dışı."),
           ("results", .jarr [])]
  else
    match outcome with
    | .ok answer results =>
      .jobj [("answer", .jstr answer),
             ("results", .jarr ((results.take 5).map (fun r =>
               .jobj [("title", .jstr r.title), ("url", .jstr r.url),
                      ("content", .jstr (pyTake 600 r.content)),
                      ("score", .jnum r.score)])))]
    | .raised e => .jobj [("error", .jstr e), ("results", .jarr [])]

/-- Search agent tool `compare_prices`. -/
def compare_prices (apiKey : String) (outcome : TavilyOutcome) (product_name : String) : JVal :=
  if apiKey == "" then
    .jobj [("message", .jstr "Web araması devre dışı."), ("results", .jarr [])]
  else
    match outcome with
    | .ok answer results =>
      .jobj [("product", .jstr product_name),
             ("answer", .jstr answer),
             ("price_sources", .jarr ((results.take 5).map (fun r =>
               .jobj [("source", .jstr r.title), ("url", .jstr r.url),
                      ("info", .jstr (pyTake 400 r.content))])))]
    | .raised e => .jobj [("error", .jstr e)]

/-- Search agent tool `get_product_reviews_web`. -/
def get_product_reviews_web (apiKey : String) (outcome : TavilyOutcome) (product_name : String) : JVal :=
  if apiKey == "" then
    .jobj [("message", .jstr "Web araması devre dışı."), ("results", .jarr [])]
  else
    match outcome with
    | .ok answer results =>
      .jobj [("product", .jstr product_name),
             ("summary", .jstr answer),
             ("reviews", .jarr ((results.take 4).map (fun r =>
               .jobj [("source", .jstr r.title), ("url", .jstr r.url),
                      ("excerpt", .jstr (pyTake 500 r.content))])))]
    | .raised e => .jobj [("error", .jstr e)]

/-- Search agent tool `get_trending_products`. -/
def get_trending_products (apiKey : String) (outcome : TavilyOutcome) (category : String) : JVal :=
  if apiKey == "" then
    .jobj [("message", .jstr "Web araması devre dışı."), ("results", .jarr [])]
  else
    match outcome with
    | .ok answer results =>
      .jobj [("category", .jstr category),
             ("trending_summary", .jstr answer),
             ("sources", .jarr ((results.take 4).map (fun r =>
               .jobj [("title", .jstr r.title), ("url", .jstr r.url),
                      ("content", .jstr (pyTake 400 r.content))])))]
    | .raised e => .jobj [("error", .jstr e)]

/-- Product agent tool `web_search_products`
(agents/product_agent/agent.py). -/
def web_search_products (apiKey : String) (outcome : TavilyOutcome) : JVal :=
  if apiKey == "" then
    .jobj [("message", .jstr "Web search not configured (no TAVILY_API_KEY)"),
           ("results", .jarr [])]
  else
    match outcome with
    | .ok answer results =>
      .jobj [("answer", .jstr answer),
             ("results", .jarr ((results.take 3).map (fun r =>
               .jobj [("title", .jstr r.title), ("url", .jstr r.url),
                      ("content", .jstr (pyTake 500 r.content))])))]
    | .raised e => .jobj [("error", .jstr e), ("results", .jarr [])]

/-- Order agent tool `web_search_shipping` (agents/order_agent/agent.py). -/
def web_search_shipping (apiKey : String) (outcome : TavilyOutcome) : JVal :=
  if apiKey == "" then
    .jobj [("message", .jstr "Web araması yapılandırılmamış (TAVILY_API_KEY eksik)"),
           ("results", .jarr [])]
  else
    match outcome with
    | .ok answer results =>
      .jobj [("answer", .jstr answer),
             ("results", .jarr ((results.take 3).map (fun r =>
               .jobj [("title", .jstr r.title), ("url", .jstr r.url),
                      ("content", .jstr (pyTake 400 r.content))])))]
    | .raised e => .jobj [("error", .jstr e)]

/-- Task lifecycle states (a2a `TaskState`, spec §3/§4.3). -/
inductive TaskState where
  | submitted
  | working
  | completed
  | failed
  | canceled
deriving DecidableEq

/-- One observable action of an agent executor on its task updater /
event queue, in emission order. -/
inductive LifecycleEvent where
  | enqueueNewTask
  | submit
  | startWork
  | updateStatus (s : TaskState) (msg : String)
  | addArtifact (text artifactId artifactName : String)
  | complete
  | failTask (msg : String)
deriving DecidableEq

/-- Modelled from the spec: the a2a `TaskUpdater` library (not under src/)
sets the task state as spec §4.3 describes — `submit()` → `submitted`,
`start_work()` → `working`, `update_status(s)` → `s`, `complete()` →
`completed`, `failed()` → `failed`; artifact attachment and task
enqueueing change no state. -/
def LifecycleEvent.stateSet : LifecycleEvent → Option TaskState
  | .submit => some .submitted
  | .startWork => some .working
  | .updateStatus s _ => some s
  | .complete => some .completed
  | .failTask _ => some .failed
  | _ => none

/-- The sequence of task states a trace of executor events sets. -/
def taskStateTrace (evs : List LifecycleEvent) : List TaskState :=
  evs.filterMap LifecycleEvent.stateSet

/-- The per-executor strings of the shared executor shell (the four
executor.py files differ only in these). -/
structure ExecutorConfig where
  progressText : String
  emptyResponseText : String
  artifactIdPrefix : String
  artifactName : String
  failPrefix : String
  failSuffix : String

/-- Strings of agents/order_agent/executor.py (`OrderAgentExecutor`). -/
def orderExecutorConfig : ExecutorConfig :=
  { progressText := "Sipariş bilgilerinizi kontrol ediyorum...",
    emptyResponseText := "Üzgünüm, bu konuda size yardımcı olamadım.",
    artifactIdPrefix := "order-response-",
    artifactName := "Order Agent Response",
    failPrefix := "Bir hata oluştu: ",
    failSuffix := "" }

/-- Strings of agents/orchestrator/executor.py (`OrchestratorExecutor`). -/
def orchestratorExecutorConfig : ExecutorConfig :=
  { progressText := "İsteğinizi analiz ediyorum ve uygun uzman ajana yönlendiriyorum...",
    emptyResponseText := "Üzgünüm, isteğinizi işleyemedim. Lütfen tekrar deneyin.",
    artifactIdPrefix := "orchestrator-response-",
    artifactName := "Shopping Assistant Response",
    failPrefix := "Sistem hatası: ",
    failSuffix := ". Lütfen tekrar deneyin." }

/-- Outcome of running the agent's LangGraph loop inside the executor's
`try` block: the accumulated `final_response` text (possibly empty), or an
uncaught exception with message `e`. -/
inductive LoopOutcome where
  | finished (finalResponse : String)
  | raised (e : String)

/-- Terminal task state the executor reaches for a loop outcome. -/
def LoopOutcome.terminalState : LoopOutcome → TaskState
  | .finished _ => .completed
  | .raised _ => .failed

/-- Event trace of the executor body after the message check
(executor.py `execute`, lines 45-101): optionally enqueue a new task, then
`submit`, `start_work`, a `working` progress update, and either artifact
attachment plus `complete` (with the default text substituted for an empty
response) or — when the loop raises — `failed` with an explanatory
message. -/
def executeEvents (cfg : ExecutorConfig) (taskId : String) (hasCurrentTask : Bool)
    (outcome : LoopOutcome) : List LifecycleEvent :=
  (if hasCurrentTask then [] else [.enqueueNewTask]) ++
  [.submit, .startWork] ++
  match outcome with
  | .raised e =>
    [.updateStatus .working cfg.progressText,
     .failTask (cfg.failPrefix ++ e ++ cfg.failSuffix)]
  | .finished r =>
    let final := if r == "" then cfg.emptyResponseText else r
    [.updateStatus .working cfg.progressText,
     .addArtifact final (cfg.artifactIdPrefix ++ taskId) cfg.artifactName,
     .complete]

/-- The executor's `execute` method including the initial request check:
a missing message raises `ServerError(InvalidParamsError)` before any
lifecycle event. -/
def execute (cfg : ExecutorConfig) (msgPresent : Bool) (taskId : String)
    (hasCurrentTask : Bool) (outcome : LoopOutcome) : Except String (List LifecycleEvent) :=
  if !msgPresent then .error "ServerError: InvalidParamsError"
  else .ok (executeEvents cfg taskId hasCurrentTask outcome)

/-- Substring containment: `needle` occurs contiguously in `hay`. -/
def strContains (hay needle : String) : Prop :=
  needle.data <:+: hay.data

instance (h n : String) : Decidable (strContains h n) :=
  List.decidableInfix n.data h.data

theorem strContains_appendL (a b : String) : strContains (a ++ b) a :=
  ⟨[], b.data, by simp [String.data_append]⟩

theorem strContains_appendR (a b : String) : strContains (a ++ b) b :=
  ⟨a.data, [], by simp [String.data_append]⟩

theorem strContains_left (a : String) {s b : String} (h : strContains s b) :
    strContains (a ++ s) b := by
  obtain ⟨pre, suf, hps⟩ := h
  exact ⟨a.data ++ pre, suf, by simp [String.data_append, hps]⟩

theorem strContains_right (a : String) {s b : String} (h : strContains s b) :
    strContains (s ++ a) b := by
  obtain ⟨pre, suf, hps⟩ := h
  exact ⟨pre, suf ++ a.data, by simp [String.data_append, ← hps]⟩

/-- C4: every exception inside a delegation call is converted into a
normal string return that names the target agent and embeds the error
reason truncated to at most 100 characters; the Delegation Client (a total
function of the transport outcome) never propagates an exception. -/
theorem delegation_failure_graceful (agent_name e : String) :
    _delegate_to_agent agent_name (.raised e)
      = agent_name ++ " şu anda ulaşılamıyor (" ++ pyTake 100 e
          ++ "). Lütfen daha sonra tekrar deneyin."
    ∧ strContains (_delegate_to_agent agent_name (.raised e)) agent_name
    ∧ strContains (_delegate_to_agent agent_name (.raised e)) (pyTake 100 e)
    ∧ (pyTake 100 e).length ≤ 100 := by
  refine ⟨rfl, ?_, ?_, ?_⟩
  · show strContains (agent_name ++ _ ++ _ ++ _) agent_name
    exact strContains_right _ (strContains_right _ (strContains_appendL _ _))
  · show strContains (agent_name ++ _ ++ pyTake 100 e ++ _) (pyTake 100 e)
    exact strContains_right _ (strContains_appendR _ _)
  · show (e.data.take 100).length ≤ 100
    rw [List.length_take]
    exact min_le_left _ _

/-- C8: with no Tavily API key configured, each of the six web-search
tools returns its disabled-search payload — an explanatory message and an
empty result list — independently of the collaborator outcome (so before
any network call), with no error field. -/
theorem web_search_disabled_payloads (outcome outcome' : TavilyOutcome) (pn cat : String) :
    (web_search "" outcome = web_search "" outcome'
      ∧ (web_search "" outcome).lookup "results" = some (.jarr [])
      ∧ (web_search "" outcome).lookup "message"
          = some (.jstr "TAVILY_API_KEY yapılandırılmamış. Web araması devre dışı.")
      ∧ (web_search "" outcome).lookup "error" = none)
    ∧ (compare_prices "" outcome pn = compare_prices "" outcome' pn
      ∧ (compare_prices "" outcome pn).lookup "results" = some (.jarr [])
      ∧ (compare_prices "" outcome pn).lookup "message" = some (.jstr "Web araması devre dışı.")
      ∧ (compare_prices "" outcome pn).lookup "error" = none)
    ∧ (get_product_reviews_web "" outcome pn = get_product_reviews_web "" outcome' pn
      ∧ (get_product_reviews_web "" outcome pn).lookup "results" = some (.jarr [])
      ∧ (get_product_reviews_web "" outcome pn).lookup "message" = some (.jstr "Web araması devre dışı.")
      ∧ (get_product_reviews_web "" outcome pn).lookup "error" = none)
    ∧ (get_trending_products "" outcome cat = get_trending_products "" outcome' cat
      ∧ (get_trending_products "" outcome cat).lookup "results" = some (.jarr [])
      ∧ (get_trending_products "" outcome cat).lookup "message" = some (.jstr "Web araması devre dışı.")
      ∧ (get_trending_products "" outcome cat).lookup "error" = none)
    ∧ (web_search_products "" outcome = web_search_products "" outcome'
      ∧ (web_search_products "" outcome).lookup "results" = some (.jarr [])
      ∧ (web_search_products "" outcome).lookup "message"
          = some (.jstr "Web search not configured (no TAVILY_API_KEY)")
      ∧ (web_search_products "" outcome).lookup "error" = none)
    ∧ (web_search_shipping "" outcome = web_search_shipping "" outcome'
      ∧ (web_search_shipping "" outcome).lookup "results" = some (.jarr [])
      ∧ (web_search_shipping "" outcome).lookup "message"
          = some (.jstr "Web araması yapılandırılmamış (TAVILY_API_KEY eksik)")
      ∧ (web_search_shipping "" outcome).lookup "error" = none) :=
  ⟨⟨rfl, rfl, rfl, rfl⟩, ⟨rfl, rfl, rfl, rfl⟩, ⟨rfl, rfl, rfl, rfl⟩,
   ⟨rfl, rfl, rfl, rfl⟩, ⟨rfl, rfl, rfl, rfl⟩, ⟨rfl, rfl, rfl, rfl⟩⟩

/-- C9: the `get_order_status` tool on `ord-001` reports status `shipped`,
the non-null tracking number `TK123456789TR`, and a non-empty tracking
event list ordered oldest-first by timestamp. -/
theorem ord001_status_payload :
    ∃ o, get_order_by_id ORDERS "ord-001" = some o
      ∧ o.status.value = "shipped"
      ∧ o.tracking_number = some "TK123456789TR"
      ∧ o.tracking_events.length = 3
      ∧ List.Chain' (fun a b => a.timestamp ≤ b.timestamp) o.tracking_events
      ∧ ((_dispatch_tool ORDERS "get_order_status" { order_id := some "ord-001" }).1).lookup "status"
          = some (.jstr "shipped")
      ∧ ((_dispatch_tool ORDERS "get_order_status" { order_id := some "ord-001" }).1).lookup "tracking_number"
          = some (.jstr "TK123456789TR")
      ∧ ((_dispatch_tool ORDERS "get_order_status" { order_id := some "ord-001" }).1).lookup "tracking_events"
          = some (.jarr (o.tracking_events.map trackingEventJson)) := by
  refine ⟨ORDERS.get ⟨0, by decide⟩, by decide, by decide, by decide, by decide, ?_, rfl, rfl, rfl⟩
  exact List.Pairwise.chain' (by decide)

/-- C10: the empty query makes the substring rule hold vacuously, so an
unfiltered `search_products` call returns a summary of every catalog
product and total 10; and in general every product a search returns does
satisfy the match rule. -/
theorem empty_query_returns_catalog :
    (_dispatch_tool ORDERS "search_products" { query := some "" }).1
      = .jobj [("products", .jarr (PRODUCTS.map _product_summary)),
               ("total", .jnum 10), ("query", .jstr "")]
    ∧ PRODUCTS.length = 10
    ∧ ∀ q, (search_products q).all (matchesQuery q) = true := by
  have hfull : mcpSearchResults "" none none none none = PRODUCTS := by decide
  refine ⟨?_, by decide, ?_⟩
  · show (JVal.jobj [("products", .jarr ((mcpSearchResults "" none none none none).map _product_summary)),
        ("total", .jnum (mcpSearchResults "" none none none none).length),
        ("query", .jstr "")], ORDERS).1 = _
    rw [hfull]
    rfl
  · intro q
    rw [List.all_eq_true]
    intro p hp
    exact (List.mem_filter.mp hp).2

/-- C1: for every executor configuration and loop outcome, the task-state
sequence set by the emitted events is exactly `submitted → working →
(completed | failed)` (collapsing the repeated `working` progress update);
`complete` is emitted exactly on the success path, right after the
artifact attachment, `failed` exactly on the exception path with a message
embedding the exception text, and never both. -/
theorem executor_lifecycle (cfg : ExecutorConfig) (taskId : String)
    (hasCurrentTask : Bool) (outcome : LoopOutcome) :
    List.destutter (· ≠ ·) (taskStateTrace (executeEvents cfg taskId hasCurrentTask outcome))
        = [TaskState.submitted, TaskState.working, outcome.terminalState]
    ∧ ((LifecycleEvent.complete ∈ executeEvents cfg taskId hasCurrentTask outcome)
        ↔ ∃ r, outcome = .finished r)
    ∧ ((∃ m, LifecycleEvent.failTask m ∈ executeEvents cfg taskId hasCurrentTask outcome)
        ↔ ∃ e, outcome = .raised e)
    ∧ ¬((LifecycleEvent.complete ∈ executeEvents cfg taskId hasCurrentTask outcome)
        ∧ ∃ m, LifecycleEvent.failTask m ∈ executeEvents cfg taskId hasCurrentTask outcome)
    ∧ (∀ r, outcome = .finished r →
        [LifecycleEvent.addArtifact (if r == "" then cfg.emptyResponseText else r)
            (cfg.artifactIdPrefix ++ taskId) cfg.artifactName,
         LifecycleEvent.complete] <:+ executeEvents cfg taskId hasCurrentTask outcome)
    ∧ (∀ e, outcome = .raised e →
        ([LifecycleEvent.failTask (cfg.failPrefix ++ e ++ cfg.failSuffix)]
            <:+ executeEvents cfg taskId hasCurrentTask outcome)
        ∧ strContains (cfg.failPrefix ++ e ++ cfg.failSuffix) e) := by
  cases outcome with
  | finished r =>
    cases hasCurrentTask with
    | false =>
      refine ⟨rfl, by simp [executeEvents], by simp [executeEvents],
        by simp [executeEvents], ?_, by simp⟩
      intro s hs
      cases hs
      exact ⟨[.enqueueNewTask, .submit, .startWork, .updateStatus .working cfg.progressText], rfl⟩
    | true =>
      refine ⟨rfl, by simp [executeEvents], by simp [executeEvents],
        by simp [executeEvents], ?_, by simp⟩
      intro s hs
      cases hs
      exact ⟨[.submit, .startWork, .updateStatus .working cfg.progressText], rfl⟩
  | raised e =>
    cases hasCurrentTask with
    | false =>
      refine ⟨rfl, by simp [executeEvents], by simp [executeEvents],
        by simp [executeEvents], by simp, ?_⟩
      intro s hs
      cases hs
      exact ⟨⟨[.enqueueNewTask, .submit, .startWork, .updateStatus .working cfg.progressText], rfl⟩,
        strContains_right _ (strContains_appendR _ _)⟩
    | true =>
      refine ⟨rfl, by simp [executeEvents], by simp [executeEvents],
        by simp [executeEvents], by simp, ?_⟩
      intro s hs
      cases hs
      exact ⟨⟨[.submit, .startWork, .updateStatus .working cfg.progressText], rfl⟩,
        strContains_right _ (strContains_appendR _ _)⟩

/-- Witness for C1 at the order executor with a raising loop: the state
sequence ends in `failed` and a failure event is emitted. -/
theorem executor_lifecycle_witness :
    List.destutter (· ≠ ·) (taskStateTrace (executeEvents orderExecutorConfig "t1" false (.raised "boom")))
        = [TaskState.submitted, TaskState.working, TaskState.failed]
    ∧ ∃ m, LifecycleEvent.failTask m ∈ executeEvents orderExecutorConfig "t1" false (.raised "boom") := by
  have h := executor_lifecycle orderExecutorConfig "t1" false (.raised "boom")
  exact ⟨h.1, h.2.2.1.mpr ⟨"boom", rfl⟩⟩

/-- C2: cancelling an order whose status is neither pending nor confirmed
returns `cancellable: false` with an error message embedding the current
status, leaves the order store unchanged, and does the same on a second
invocation — on the MCP dispatch path and on the order agent's local
fallback alike. -/
theorem cancel_ineligible_order (orders : List Order) (oid : String) (o : Order)
    (hfind : get_order_by_id orders oid = some o)
    (hpend : o.status ≠ .pending) (hconf : o.status ≠ .confirmed) :
    ((_dispatch_tool orders "cancel_order" { order_id := some oid }).1).lookup "cancellable"
        = some (.jbool false)
    ∧ (∃ m, ((_dispatch_tool orders "cancel_order" { order_id := some oid }).1).lookup "error"
        = some (.jstr m) ∧ strContains m o.status.value)
    ∧ (_dispatch_tool orders "cancel_order" { order_id := some oid }).2 = orders
    ∧ _dispatch_tool ((_dispatch_tool orders "cancel_order" { order_id := some oid }).2)
        "cancel_order" { order_id := some oid }
        = _dispatch_tool orders "cancel_order" { order_id := some oid }
    ∧ ((order_agent_direct_tool_call orders "cancel_order" { order_id := some oid }).1).lookup "cancellable"
        = some (.jbool false)
    ∧ (∃ m, ((order_agent_direct_tool_call orders "cancel_order" { order_id := some oid }).1).lookup "error"
        = some (.jstr m) ∧ strContains m o.status.value)
    ∧ (order_agent_direct_tool_call orders "cancel_order" { order_id := some oid }).2 = orders
    ∧ order_agent_direct_tool_call
        ((order_agent_direct_tool_call orders "cancel_order" { order_id := some oid }).2)
        "cancel_order" { order_id := some oid }
        = order_agent_direct_tool_call orders "cancel_order" { order_id := some oid } := by
  have hb : (o.status == OrderStatus.pending || o.status == OrderStatus.confirmed) = false := by
    simp [hpend, hconf]
  have hm : _dispatch_tool orders "cancel_order" { order_id := some oid }
      = (.jobj [("error", .jstr ("Order cannot be cancelled. Current status: " ++ o.status.value)),
                ("cancellable", .jbool false)], orders) := by
    simp [_dispatch_tool, hfind, hb]
  have hf : order_agent_direct_tool_call orders "cancel_order" { order_id := some oid }
      = (.jobj [("error", .jstr ("Sipariş iptal edilemiyor. Mevcut durum: " ++ o.status.value)),
                ("cancellable", .jbool false)], orders) := by
    simp [order_agent_direct_tool_call, hfind, hb]
  refine ⟨by rw [hm]; rfl, ⟨_, by rw [hm]; rfl, strContains_appendR _ _⟩,
    by rw [hm], by rw [hm]; exact hm, by rw [hf]; rfl,
    ⟨_, by rw [hf]; rfl, strContains_appendR _ _⟩, by rw [hf], by rw [hf]; exact hf⟩

/-- Witness for C2 at the shipped order `ord-001` in the mock store. -/
theorem cancel_ineligible_order_witness :
    ((_dispatch_tool ORDERS "cancel_order" { order_id := some "ord-001" }).1).lookup "cancellable"
        = some (.jbool false)
    ∧ ((order_agent_direct_tool_call ORDERS "cancel_order" { order_id := some "ord-001" }).1).lookup "cancellable"
        = some (.jbool false) := by
  have h := cancel_ineligible_order ORDERS "ord-001" (ORDERS.get ⟨0, by decide⟩)
    (by decide) (by decide) (by decide)
  exact ⟨h.1, h.2.2.2.2.1⟩

/-- C5: every lookup tool invoked with an identifier matching no stored
entity returns a payload that is exactly a single explicit not-found error
— no entity data fields, no empty success. -/
theorem not_found_payloads (pid oid e cid : String) :
    (get_product_by_id pid = none →
      (_dispatch_tool ORDERS "get_product_details" { product_id := some pid }).1
        = .jobj [("error", .jstr ("Product " ++ pid ++ " not found"))]
      ∧ (_dispatch_tool ORDERS "check_product_availability" { product_id := some pid }).1
        = .jobj [("error", .jstr ("Product " ++ pid ++ " not found"))]
      ∧ strContains ("Product " ++ pid ++ " not found") "not found")
    ∧ (∀ orders, get_order_by_id orders oid = none →
      (_dispatch_tool orders "get_order_status" { order_id := some oid }).1
        = .jobj [("error", .jstr ("Order " ++ oid ++ " not found"))]
      ∧ (_dispatch_tool orders "cancel_order" { order_id := some oid }).1
        = .jobj [("error", .jstr ("Order " ++ oid ++ " not found"))]
      ∧ strContains ("Order " ++ oid ++ " not found") "not found")
    ∧ (e ≠ "" → get_customer_by_email e = none →
      (_dispatch_tool ORDERS "get_customer_profile" { email := some e }).1
        = .jobj [("error", .jstr "Customer not found")])
    ∧ (cid ≠ "" → get_customer_by_id cid = none →
      (_dispatch_tool ORDERS "get_customer_profile" { customer_id := some cid }).1
        = .jobj [("error", .jstr "Customer not found")]) := by
  refine ⟨?_, ?_, ?_, ?_⟩
  · intro h
    exact ⟨by simp [_dispatch_tool, h], by simp [_dispatch_tool, h],
      strContains_left _ (by decide)⟩
  · intro orders h
    exact ⟨by simp [_dispatch_tool, h], by simp [_dispatch_tool, h],
      strContains_left _ (by decide)⟩
  · intro he h
    simp [_dispatch_tool, truthyS, he, h]
  · intro hc h
    simp [_dispatch_tool, truthyS, hc, h]

/-- Witness for C5 at unknown identifiers `prod-999`, `ord-999`,
`nobody@example.com`. -/
theorem not_found_payloads_witness :
    (_dispatch_tool ORDERS "get_product_details" { product_id := some "prod-999" }).1
      = .jobj [("error", .jstr "Product prod-999 not found")]
    ∧ (_dispatch_tool ORDERS "get_order_status" { order_id := some "ord-999" }).1
      = .jobj [("error", .jstr "Order ord-999 not found")]
    ∧ (_dispatch_tool ORDERS "get_customer_profile" { email := some "nobody@example.com" }).1
      = .jobj [("error", .jstr "Customer not found")] := by
  have h := not_found_payloads "prod-999" "ord-999" "nobody@example.com" "cust-999"
  exact ⟨(h.1 (by decide)).1, (h.2.1 ORDERS (by decide)).1,
    h.2.2.1 (by decide) (by decide)⟩

/-- C6: a product is returned by the catalog search exactly when the
lowercased query occurs in its lowercased name, description or brand, or
in some lowercased tag; consequently a query matching no product yields
the empty-products, total-zero payload from the unfiltered tool call. -/
theorem search_match_rule (q : String) :
    (∀ p, p ∈ search_products q ↔ p ∈ PRODUCTS ∧
      (pyIn (pyLower q) (pyLower p.name) ∨ pyIn (pyLower q) (pyLower p.description)
        ∨ pyIn (pyLower q) (pyLower p.brand)
        ∨ ∃ t ∈ p.tags, pyIn (pyLower q) (pyLower t)))
    ∧ ((∀ p ∈ PRODUCTS,
        ¬(pyIn (pyLower q) (pyLower p.name) ∨ pyIn (pyLower q) (pyLower p.description)
          ∨ pyIn (pyLower q) (pyLower p.brand)
          ∨ ∃ t ∈ p.tags, pyIn (pyLower q) (pyLower t))) →
      (_dispatch_tool ORDERS "search_products" { query := some q }).1
        = .jobj [("products", .jarr []), ("total", .jnum 0), ("query", .jstr q)]) := by
  have hmatch : ∀ p, matchesQuery q p = true ↔
      (pyIn (pyLower q) (pyLower p.name) ∨ pyIn (pyLower q) (pyLower p.description)
        ∨ pyIn (pyLower q) (pyLower p.brand)
        ∨ ∃ t ∈ p.tags, pyIn (pyLower q) (pyLower t)) := by
    intro p
    simp only [matchesQuery, pyInB, Bool.or_eq_true, decide_eq_true_eq, List.any_eq_true]
    constructor
    · rintro (((h | h) | h) | h)
      · exact Or.inl h
      · exact Or.inr (Or.inl h)
      · exact Or.inr (Or.inr (Or.inr h))
      · exact Or.inr (Or.inr (Or.inl h))
    · rintro (h | h | h | h)
      · exact Or.inl (Or.inl (Or.inl h))
      · exact Or.inl (Or.inl (Or.inr h))
      · exact Or.inr h
      · exact Or.inl (Or.inr h)
  constructor
  · intro p
    rw [search_products, List.mem_filter, hmatch]
  · intro h
    have hnil : search_products q = [] := by
      rw [search_products, List.filter_eq_nil_iff]
      intro p hp
      rw [hmatch]
      exact h p hp
    have hres : mcpSearchResults q none none none none = [] := hnil
    show (JVal.jobj [("products", .jarr ((mcpSearchResults q none none none none).map _product_summary)),
        ("total", .jnum (mcpSearchResults q none none none none).length),
        ("query", .jstr q)], ORDERS).1 = _
    rw [hres]
    rfl

/-- Witness for C6 at the query `zzzz`, which matches no product. -/
theorem search_match_rule_witness :
    (_dispatch_tool ORDERS "search_products" { query := some "zzzz" }).1
      = .jobj [("products", .jarr []), ("total", .jnum 0), ("query", .jstr "zzzz")] :=
  (search_match_rule "zzzz").2 (by decide)

/-- Text of the status-message branch of the orchestrator's extraction. -/
def statusText (r : A2AResult) : String :=
  match r.status with
  | some st =>
    match st.message with
    | some m => partsText m.parts
    | none => ""
  | none => ""

/-- C7: when the delegated response carries a (non-empty) artifact list —
in particular one with text parts — the extracted text comes from the
artifacts alone and the status message is never consulted; the status
message is used only when no artifacts are present; an empty extraction
yields the fixed "yanıt vermedi" fallback; and the extraction always comes
from exactly one of the two sources. -/
theorem delegation_extraction_precedence (agent_name : String) (r : A2AResult) :
    (∀ arts a, r.artifacts = some arts → a ∈ arts → a.parts.filterMap id ≠ [] →
      extractResultText (some r) = artifactsText arts
      ∧ ∀ st, extractResultText (some { r with status := st }) = extractResultText (some r))
    ∧ ((r.artifacts = none ∨ r.artifacts = some []) →
      extractResultText (some r) = statusText r)
    ∧ (∀ res, extractResultText res = "" →
      _delegate_to_agent agent_name (.response res) = agent_name ++ " yanıt vermedi.")
    ∧ (extractResultText (some r) = artifactsText (r.artifacts.getD [])
        ∨ extractResultText (some r) = statusText r) := by
  refine ⟨?_, ?_, ?_, ?_⟩
  · intro arts a harts ha _
    have hne : arts ≠ [] := by
      intro hnil
      rw [hnil] at ha
      exact (List.not_mem_nil a) ha
    have htruthy : artifactsTruthy r = true := by
      simp [artifactsTruthy, harts, List.isEmpty_iff, hne]
    constructor
    · simp [extractResultText, htruthy, harts]
    · intro st
      have htruthy' : artifactsTruthy { r with status := st } = true := htruthy
      simp [extractResultText, htruthy, htruthy']
  · intro h
    have htruthy : artifactsTruthy r = false := by
      rcases h with h | h <;> simp [artifactsTruthy, h]
    simp only [extractResultText, htruthy, Bool.false_eq_true, if_false]
    rfl
  · intro res h
    simp [_delegate_to_agent, h]
  · cases htruthy : artifactsTruthy r with
    | true => exact Or.inl (by simp [extractResultText, htruthy])
    | false =>
      refine Or.inr ?_
      simp only [extractResultText, htruthy, Bool.false_eq_true, if_false]
      rfl

/-- A concrete delegated response carrying both an artifact with text and
a status message, to exercise the precedence rule. -/
def artifactAndStatusResponse : A2AResult :=
  { artifacts := some [{ parts := [some "merhaba"] }],
    status := some { message := some { parts := [some "durum"] } } }

/-- Witness for C7: an artifact-bearing response is extracted from the
artifact even though a status message is present, and an empty response
yields the fixed fallback string. -/
theorem delegation_extraction_witness :
    extractResultText (some artifactAndStatusResponse) = "merhaba"
    ∧ _delegate_to_agent "Order Agent" (.response none) = "Order Agent yanıt vermedi." := by
  have h := delegation_extraction_precedence "Order Agent" artifactAndStatusResponse
  constructor
  · have ha := (h.1 [{ parts := [some "merhaba"] }] { parts := [some "merhaba"] }
      rfl (by simp) (by decide)).1
    rw [ha]
    rfl
  · exact h.2.2.1 none rfl

/-- C3 counterexample: the MCP dispatcher and the product agent's local
fallback disagree on `check_product_availability` for the existing product
`prod-001` — the dispatcher returns the availability payload while the
fallback returns a tool-not-available error payload. -/
theorem fallback_not_equivalent :
    (_dispatch_tool ORDERS "check_product_availability" { product_id := some "prod-001" }).1
      ≠ product_agent_direct_tool_call "check_product_availability" { product_id := some "prod-001" } := by
  have hm : ((_dispatch_tool ORDERS "check_product_availability" { product_id := some "prod-001" }).1).lookup "error" = none := rfl
  have hf : (product_agent_direct_tool_call "check_product_availability" { product_id := some "prod-001" }).lookup "error"
      = some (.jstr "Tool check_product_availability not available in fallback") := rfl
  intro h
  rw [h, hf] at hm
  exact Option.noConfusion hm

/-- C3 amended: each agent's fallback covers only a subset of the
backend's tool names, answering the rest with an explicit
tool-not-available error payload; the product agent's fallback search
selects exactly the products the backend selects under the same
category/max_price/in_stock_only filters with no min_rating step (a
supplied min_rating is ignored); its fallback recommendations ignore all
arguments and return the backend's default top-4-by-rating list; and the
order agent's fallback returns the backend's identical payload for
`get_order_status` on existing orders. -/
theorem fallback_partial_equivalence :
    (∀ args : ToolArgs, product_agent_direct_tool_call "check_product_availability" args
      = .jobj [("error", .jstr "Tool check_product_availability not available in fallback")])
    ∧ (∀ args : ToolArgs, productFallbackSearchResults args
      = mcpSearchResults (args.query.getD "") args.category args.max_price none args.in_stock_only)
    ∧ (∀ (args : ToolArgs) (mr : Option Int),
      productFallbackSearchResults { args with min_rating := mr } = productFallbackSearchResults args)
    ∧ (∀ args args' : ToolArgs, product_agent_direct_tool_call "get_recommendations" args
      = product_agent_direct_tool_call "get_recommendations" args')
    ∧ ((sortByRatingDesc PRODUCTS).take 4).map (fun p => p.id)
        = ["prod-002", "prod-009", "prod-001", "prod-005"]
    ∧ (∀ orders oid o, get_order_by_id orders oid = some o →
      order_agent_direct_tool_call orders "get_order_status" { order_id := some oid }
        = _dispatch_tool orders "get_order_status" { order_id := some oid }) := by
  refine ⟨fun _ => rfl, fun _ => rfl, fun _ _ => rfl, fun _ _ => rfl, by decide, ?_⟩
  intro orders oid o h
  simp [order_agent_direct_tool_call, _dispatch_tool, h]

/-- Witness for the amended C3: on `ord-001` the order agent's fallback
and the dispatcher return the same `get_order_status` payload, and the
fallback search on query `sony` with min_rating 49 still returns the
product the backend's min_rating filter would exclude. -/
theorem fallback_partial_equivalence_witness :
    order_agent_direct_tool_call ORDERS "get_order_status" { order_id := some "ord-001" }
      = _dispatch_tool ORDERS "get_order_status" { order_id := some "ord-001" }
    ∧ productFallbackSearchResults { query := some "sony", min_rating := some 49 }
      = mcpSearchResults "sony" none none none none := by
  have h := fallback_partial_equivalence
  refine ⟨h.2.2.2.2.2 ORDERS "ord-001" (ORDERS.get ⟨0, by decide⟩) (by decide), ?_⟩
  exact h.2.1 { query := some "sony", min_rating := some 49 }

end ECom
